import Mathlib

/-!
Verification development for the `llm-commit` plugin
(`src/llm_commit/plugin.py`): a shallow embedding of its SCM adapters,
staged-changes classifier, command construction, quoting, message insertion
and executor, together with theorems checking the specification's claims.

Subprocess invocations are modelled by passing their observable result
(`returncode`, captured `stdout`) as an explicit parameter.  Python-specific
behaviours that matter to the code's control flow are modelled explicitly and
documented at each use site: attribute access on a method without calling it
yields a bound-method object (`PyAttr.boundMethod`), which compares unequal
to every enum value and is truthy; an exception object that is constructed
but not raised has no effect.
-/

deriving instance DecidableEq for Except

namespace LlmCommit

/-- The `StagedChangesStatus` enum from the source. -/
inductive StagedChangesStatus where
  | NONE
  | SOME
  | ALL
  | NO_CHANGES
deriving DecidableEq

/-- Exceptions that the source can raise: `click.ClickException(msg)` and
`subprocess.CalledProcessError` (carrying the exit status and the captured
output with stderr merged in). -/
inductive Err where
  | clickException (msg : String)
  | calledProcessError (returncode : Int) (output : String)
deriving DecidableEq

/-- Observable result of a finished subprocess: its exit code and its
captured output text. -/
structure ProcResult where
  returncode : Int
  stdout : String
deriving DecidableEq

/-- Helper for `strInB`: does `needle` occur as a contiguous run inside the
character list? -/
def substrAux (needle : List Char) : List Char → Bool
  | [] => needle.isEmpty
  | c :: rest => needle.isPrefixOf (c :: rest) || substrAux needle rest

/-- Python's substring test `needle in hay` on strings. -/
def strInB (needle hay : String) : Bool :=
  substrAux needle.toList hay.toList

/-- A Python attribute lookup that may yield either the bound method object
itself (when the source accesses a method without calling it) or an actual
value of type `α`. -/
inductive PyAttr (α : Type) where
  | boundMethod
  | value (a : α)
deriving DecidableEq

/-- Python `==` between an attribute-lookup result and a plain value: a
bound-method object compares unequal to every enum member. -/
def pyEq {α : Type} [DecidableEq α] : PyAttr α → α → Bool
  | .boundMethod, _ => false
  | .value a, b => decide (a = b)

namespace GitSCM

/-- `GitSCM._staged_changes_status` (body after the `git status` subprocess
call, which is passed in as `result`): raise on non-zero exit, otherwise
classify by the two substring markers in the human-readable output. -/
def staged_changes_status (result : ProcResult) : Except Err StagedChangesStatus :=
  if result.returncode ≠ 0 then
    .error (.clickException "Failed to get staged changes")
  else
    let to_be_committed := strInB "to be committed:" result.stdout
    let not_staged_for_commit := strInB "not staged for commit:" result.stdout
    if to_be_committed then
      if not_staged_for_commit then .ok .SOME else .ok .ALL
    else if not_staged_for_commit then .ok .NONE
    else .ok .NO_CHANGES

/-- The diff command built by `GitSCM.get_changes`.  The source writes
`match self._staged_changes_status:` — the subject is the bound method
object (the method is never called), so none of the `case` arms against
`StagedChangesStatus` members can match and execution falls through the
`match` with `command` unchanged. -/
def get_changes_command : Except Err (List String) :=
  let command := ["git", "diff"]
  match (PyAttr.boundMethod : PyAttr StagedChangesStatus) with
  | .value .NONE => .ok command
  | .value .SOME => .ok (command ++ ["--cached"])
  | .value .ALL => .ok (command ++ ["--cached"])
  | .value .NO_CHANGES => .error (.clickException "No changes found")
  | .boundMethod => .ok command

/-- `GitSCM.get_changes`: build the diff command, run it (`run` models the
subprocess boundary), and raise `No changes found` when the output is empty
after trimming. -/
def get_changes (run : List String → ProcResult) : Except Err String := do
  let command ← get_changes_command
  let result := run command
  if result.stdout.trim = "" then
    throw (.clickException "No changes found")
  else
    pure result.stdout

/-- `GitSCM.get_command`.  Two slips from the source are modelled verbatim:
the guard `self._staged_changes_status == StagedChangesStatus.NO_CHANGES`
compares the bound method object (never called) to an enum member, which is
always false, and even its body only constructs `click.ClickException` without
raising it; likewise the `elif` compares the bound method object to
`StagedChangesStatus.NONE`, always false, so `-a` is appended only under
`force_all`. -/
def get_command (_repo_path : String) (force_all : Bool) : List String :=
  let extra_args : List String := []
  let _unraised :=
    if pyEq (PyAttr.boundMethod : PyAttr StagedChangesStatus) StagedChangesStatus.NO_CHANGES
    then some (Err.clickException "No changes to commit") else none
  let extra_args :=
    if force_all then extra_args ++ ["-a"]
    else if pyEq (PyAttr.boundMethod : PyAttr StagedChangesStatus) StagedChangesStatus.NONE then
      extra_args ++ ["-a"]
    else extra_args
  ["git", "commit", "-m", "{}"] ++ extra_args

/-- Return value of the method `GitSCM.commits_silently`. -/
def commits_silently : Bool := false

end GitSCM

namespace MercurialSCM

/-- `MercurialSCM._staged_changes_status` (body after the `hg status` call):
non-zero exit raises; empty output means `NO_CHANGES`; otherwise `ALL`. -/
def staged_changes_status (result : ProcResult) : Except Err StagedChangesStatus :=
  if result.returncode ≠ 0 then
    .error (.clickException "Failed to get status")
  else if result.stdout.trim = "" then
    .ok .NO_CHANGES
  else
    .ok .ALL

/-- `MercurialSCM.get_command`: here the status method IS called, but when it
is `NO_CHANGES` the source only constructs `click.ClickException` without
raising it, so the branch has no effect and the template is always
returned. -/
def get_command (status : StagedChangesStatus) : List String :=
  let _unraised :=
    if status = StagedChangesStatus.NO_CHANGES
    then some (Err.clickException "No changes to commit") else none
  ["hg", "commit", "-m", "{}"]

/-- Value returned by the `commits_silently` property getter. -/
def commits_silently : Bool := true

end MercurialSCM

namespace SvnSCM

/-- `SvnSCM._staged_changes_status` (body after the `svn status` call). -/
def staged_changes_status (result : ProcResult) : Except Err StagedChangesStatus :=
  if result.returncode ≠ 0 then
    .error (.clickException "Failed to get status")
  else if result.stdout.trim = "" then
    .ok .NO_CHANGES
  else
    .ok .ALL

/-- `SvnSCM.get_command`: the only adapter that actually RAISES on
`NO_CHANGES`. -/
def get_command (status : StagedChangesStatus) : Except Err (List String) :=
  if status = StagedChangesStatus.NO_CHANGES then
    .error (.clickException "No changes to commit")
  else
    .ok ["svn", "commit", "-m", "{}"]

/-- Value returned by the `commits_silently` property getter. -/
def commits_silently : Bool := false

end SvnSCM

/-- The three SCM adapter classes, in the priority order of `scm_classes` in
the source's `commit` command. -/
inductive ScmKind where
  | git
  | hg
  | svn
deriving DecidableEq

/-- The `__scm_type__` class attribute of each adapter. -/
def scm_type : ScmKind → String
  | .git => "git"
  | .hg => "hg"
  | .svn => "svn"

/-- Which VCS metadata directories exist directly under the repository path
(the only facts `detect_scm` consults). -/
structure RepoMarkers where
  hasGit : Bool
  hasHg : Bool
  hasSvn : Bool
deriving DecidableEq

/-- Each adapter's `detect_scm`: a pure existence check of `.git`, `.hg` or
`.svn` under the repository path, returning the SCM name or Python `None`. -/
def detect_scm (k : ScmKind) (m : RepoMarkers) : Option String :=
  match k with
  | .git => if m.hasGit then some "git" else none
  | .hg => if m.hasHg then some "hg" else none
  | .svn => if m.hasSvn then some "svn" else none

/-- `scm_classes = [GitSCM, MercurialSCM, SvnSCM]` from the source. -/
def scm_classes : List ScmKind := [.git, .hg, .svn]

/-- The adapter-selection loop of the `commit` command:
`for scm_class in scm_classes: scm = scm_class(); if scm.detect_scm(path) is
not None: break`.  The accumulator is the Python variable `scm`, which is
overwritten with the freshly constructed instance on EVERY iteration, before
the detection test. -/
def select_scm_loop (m : RepoMarkers) : List ScmKind → Option ScmKind → Option ScmKind
  | [], scm => scm
  | k :: rest, _ =>
    let scm := some k
    if (detect_scm k m).isSome then scm
    else select_scm_loop m rest scm

/-- The value of the Python variable `scm` after the selection loop (it was
initialised to `None` before the loop). -/
def select_scm (m : RepoMarkers) : Option ScmKind :=
  select_scm_loop m scm_classes none

/-- `", ".join([scm.__scm_type__ for scm in scm_classes])`. -/
def supported_scms : String :=
  String.intercalate ", " (scm_classes.map scm_type)

/-- The `commit` command's adapter selection including the
`if scm is None: raise click.ClickException(...)` check (note the source's
message is missing its closing parenthesis, reproduced faithfully). -/
def commit_select (m : RepoMarkers) : Except Err ScmKind :=
  match select_scm m with
  | none =>
    .error (.clickException ("No supported SCM found (supported scms: " ++ supported_scms))
  | some k => .ok k

/-- Truthiness of the attribute access `scm.commits_silently` at the end of
the `commit` command.  The attribute is accessed WITHOUT parentheses: for
`GitSCM`, `commits_silently` is a plain method, so the access yields a
bound-method object, which is truthy in Python regardless of the `False` the
method would return if called; for `MercurialSCM` and `SvnSCM` it is a
property, so the access yields the getter's boolean return value. -/
def scm_commits_silently_attr : ScmKind → Bool
  | .git => true
  | .hg => MercurialSCM.commits_silently
  | .svn => SvnSCM.commits_silently

/-- Whether the `commit` command prints the synthetic post-commit
confirmation lines (`if scm.commits_silently: print(...)`). -/
def prints_confirmation (k : ScmKind) : Bool :=
  scm_commits_silently_attr k

/-- The source's `escape`: `s.replace("'", "'\"'\"")`.  Since the pattern is
the single character `'`, Python's `str.replace` is exactly per-character
substitution, modelled here over the character list.  Note the replacement
text in the source is the FOUR characters `'"'"` — it lacks the final
re-opening single quote of the classic five-character idiom. -/
def escape (s : String) : String :=
  String.join (s.toList.map fun c => if c = '\'' then "'\"'\"" else String.singleton c)

/-- The source's `quote`: wrap in single quotes when the message holds no
single quote; otherwise wrap in double quotes when it holds no double quote;
otherwise return `escape(s)` — with NO outer wrapping, despite the comment in
the source saying the result should be wrapped in single quotes. -/
def quote (s : String) : String :=
  if strInB "'" s = false then "'" ++ s ++ "'"
  else if strInB "\"" s = false then "\"" ++ s ++ "\""
  else escape s

/-- A heap of Python list objects, so that aliasing between the caller's
list and the callee's local copy can be stated: a Python list value is a
reference (an index into `cells`). -/
structure PyHeap where
  cells : List (List String)

/-- Dereference a Python list reference. -/
def readRef (h : PyHeap) (r : Nat) : List String :=
  (h.cells[r]?).getD []

/-- In-place mutation of the list object behind a reference. -/
def writeRef (h : PyHeap) (r : Nat) (v : List String) : PyHeap :=
  ⟨h.cells.set r v⟩

/-- `list.copy()`: allocate a fresh list object with the same elements,
returning the new heap and the fresh reference. -/
def allocRef (h : PyHeap) (v : List String) : PyHeap × Nat :=
  (⟨h.cells ++ [v]⟩, h.cells.length)

/-- The `for index, segment in enumerate(command)` loop body of
`insert_message`: writing `command[index]` at the current index never affects
the segments still to be visited, so the loop is elementwise
substitution. -/
def insert_loop (message : String) : List String → List String
  | [] => []
  | segment :: rest =>
    (if segment = "{}" then quote message else segment) :: insert_loop message rest

/-- `insert_message(command, message)`: rebind the local name to
`command.copy()`, substitute `quote(message)` for every `"{}"` segment of the
copy in place, and return the copy's segments joined by single spaces.  The
result pairs the final heap (so the caller's list can be inspected
afterwards) with the returned string. -/
def insert_message (h : PyHeap) (commandRef : Nat) (message : String) : PyHeap × String :=
  let copied := readRef h commandRef
  let (h1, localRef) := allocRef h copied
  let h2 := writeRef h1 localRef (insert_loop message (readRef h1 localRef))
  (h2, String.intercalate " " (readRef h2 localRef))

/-- `subprocess.check_output(..., stderr=subprocess.STDOUT)`: on zero exit,
return the captured output (stderr merged into stdout); on non-zero exit,
raise `CalledProcessError` carrying the exit status and that same captured
output. -/
def check_output (r : ProcResult) : Except Err String :=
  if r.returncode = 0 then .ok r.stdout
  else .error (.calledProcessError r.returncode r.stdout)

/-- The execute-and-report tail of `interactive_exec` (after the prompt
session returned the possibly user-edited command; `r` is the observable
result of running it): the `try`/`except CalledProcessError` prints either
the output or a failure line with the exit status and the captured output,
and re-raises nothing.  The result is the list of printed lines. -/
def interactive_exec (r : ProcResult) : Except Err (List String) :=
  match check_output r with
  | .ok output => .ok [output]
  | .error (.calledProcessError returncode output) =>
    .ok ["Command failed with error (exit status " ++ toString returncode ++ "): " ++ output]
  | .error e => .error e

/-- The silent-mode branch of the `commit` command
(`subprocess.run(full_command_str, shell=True, cwd=path)`): no `check=True`,
so a non-zero exit raises nothing, and no `capture_output`, so the plugin
itself captures and prints nothing (the child writes straight to the
terminal).  The result is the list of lines the plugin prints about the
run. -/
def silent_exec (_r : ProcResult) : Except Err (List String) :=
  .ok []

/-- What the spec means by a failure being reported: some printed line
carries both the exit status and the captured output. -/
def reports_failure (printed : List String) (r : ProcResult) : Prop :=
  ∃ line, line ∈ printed ∧
    strInB (toString r.returncode) line = true ∧ strInB r.stdout line = true

/-- Spec-side model (not from the source): quoting state of a POSIX shell
tokenizer, used to state the round-trip property the spec claims for
`quote`. -/
inductive QuoteState where
  | outside
  | single
  | double
deriving DecidableEq

/-- Spec-side model (not from the source): POSIX field splitting of a
command line built only from spaces and single- or double-quoted runs (no
backslashes or expansions occur in the inputs considered here).  Returns
`none` on an unterminated quote; `cur` is the word accumulated so far,
`none` while no word has started. -/
def shellSplitAux : List Char → QuoteState → Option String → Option (List String)
  | [], .outside, cur => some (match cur with | none => [] | some w => [w])
  | [], .single, _ => none
  | [], .double, _ => none
  | c :: rest, .outside, cur =>
    if c = ' ' then
      match cur with
      | none => shellSplitAux rest .outside none
      | some w => (shellSplitAux rest .outside none).map (fun tl => w :: tl)
    else if c = '\'' then shellSplitAux rest .single (some (cur.getD ""))
    else if c = '"' then shellSplitAux rest .double (some (cur.getD ""))
    else shellSplitAux rest .outside (some (cur.getD "" ++ String.singleton c))
  | c :: rest, .single, cur =>
    if c = '\'' then shellSplitAux rest .outside cur
    else shellSplitAux rest .single (some (cur.getD "" ++ String.singleton c))
  | c :: rest, .double, cur =>
    if c = '"' then shellSplitAux rest .outside cur
    else shellSplitAux rest .double (some (cur.getD "" ++ String.singleton c))

/-- Spec-side model (not from the source): tokenize a whole command line. -/
def shellSplit (s : String) : Option (List String) :=
  shellSplitAux s.toList .outside none

/-- Helper: a needle that is a boolean prefix of the haystack is found by
`substrAux`. -/
theorem substrAux_of_isPrefixOf (n l : List Char) (h : n.isPrefixOf l = true) :
    substrAux n l = true := by
  cases l with
  | nil =>
    cases n with
    | nil => rfl
    | cons c cs => simp [List.isPrefixOf] at h
  | cons c cs => simp [substrAux, h]

/-- Helper: `substrAux` is monotone under consing onto the haystack. -/
theorem substrAux_cons_of (n : List Char) (c : Char) (l : List Char)
    (h : substrAux n l = true) : substrAux n (c :: l) = true := by
  simp [substrAux, h]

/-- Helper: `substrAux` is monotone under prepending to the haystack. -/
theorem substrAux_append_left (n pre l : List Char) (h : substrAux n l = true) :
    substrAux n (pre ++ l) = true := by
  induction pre with
  | nil => exact h
  | cons c cs ih => exact substrAux_cons_of n c (cs ++ l) ih

/-- Helper: every list is a boolean prefix of itself followed by anything. -/
theorem isPrefixOf_self_append (n suf : List Char) : n.isPrefixOf (n ++ suf) = true := by
  induction n with
  | nil => simp [List.isPrefixOf]
  | cons c cs ih => simp [List.isPrefixOf, ih]

/-- Helper: Python's `in` finds a string sandwiched between any prefix and
suffix. -/
theorem strInB_sandwich (a x y : String) : strInB a (x ++ a ++ y) = true := by
  unfold strInB
  have hx : (x ++ a ++ y).toList = x.toList ++ (a.toList ++ y.toList) := by
    simp [String.toList, List.append_assoc]
  rw [hx]
  exact substrAux_append_left _ _ _
    (substrAux_of_isPrefixOf _ _ (isPrefixOf_self_append _ _))

/-- Helper: `insert_message`'s returned heap, written via the heap
primitives. -/
theorem insert_message_heap (h : PyHeap) (r : Nat) (msg : String) :
    (insert_message h r msg).1 =
      writeRef (allocRef h (readRef h r)).1 (allocRef h (readRef h r)).2
        (insert_loop msg
          (readRef (allocRef h (readRef h r)).1 (allocRef h (readRef h r)).2)) := rfl

/-- Helper: `insert_message`'s returned string, written via the heap
primitives. -/
theorem insert_message_ret (h : PyHeap) (r : Nat) (msg : String) :
    (insert_message h r msg).2 =
      String.intercalate " "
        (readRef (insert_message h r msg).1 (allocRef h (readRef h r)).2) := rfl

/-- Helper: reading the freshly allocated cell yields the stored list. -/
theorem readRef_alloc (h : PyHeap) (v : List String) :
    readRef (allocRef h v).1 (allocRef h v).2 = v := by
  simp [readRef, allocRef, List.getElem?_concat_length]

/-- Helper: allocation does not disturb existing cells. -/
theorem readRef_alloc_old (h : PyHeap) (v : List String) (r : Nat)
    (hr : r < h.cells.length) :
    readRef (allocRef h v).1 r = readRef h r := by
  simp [readRef, allocRef, List.getElem?_append_left hr]

/-- Helper: reading back a written cell yields the written list. -/
theorem readRef_write_self (h : PyHeap) (r : Nat) (v : List String)
    (hr : r < h.cells.length) :
    readRef (writeRef h r v) r = v := by
  simp [readRef, writeRef, List.getElem?_set_self hr]

/-- Helper: writing one cell does not disturb a distinct cell. -/
theorem readRef_write_ne (h : PyHeap) (r r' : Nat) (v : List String)
    (hne : r ≠ r') :
    readRef (writeRef h r v) r' = readRef h r' := by
  simp [readRef, writeRef, List.getElem?_set_ne hne]

/-- Helper: the substitution loop is the identity on a segment list that
holds no placeholder. -/
theorem insert_loop_of_not_mem (msg : String) (l : List String)
    (h : "{}" ∉ l) : insert_loop msg l = l := by
  induction l with
  | nil => rfl
  | cons s rest ih =>
    simp only [List.mem_cons, not_or] at h
    have hs : s ≠ "{}" := Ne.symm h.1
    simp [insert_loop, hs, ih h.2]

/-- C1: on the message `a'b"c`, which contains both quote characters,
`quote` returns `escape` of the message unwrapped — `a'"'"b"c`, with the
single quote replaced by the FOUR characters `'"'"` and no outer single
quotes — not the claimed `'a'"'"'b"c'`; a shell tokenizes the code's output
into the single argument `a"bc`, not the original message, whereas the
claimed construction would round-trip. -/
theorem C1_quote_both_quotes_eval :
    quote "a'b\"c" = escape "a'b\"c" ∧
    escape "a'b\"c" = "a'\"'\"b\"c" ∧
    quote "a'b\"c" ≠ "'a'\"'\"'b\"c'" ∧
    shellSplit (quote "a'b\"c") = some ["a\"bc"] ∧
    shellSplit "'a'\"'\"'b\"c'" = some ["a'b\"c"] := by
  refine ⟨by decide, by decide, by decide, by decide, by decide⟩

/-- C2: `GitSCM.get_changes` never varies the diff command with the staged
status: the `match` subject is the un-called bound method, so no case arm
fires, `--cached` is never appended, the `NO_CHANGES` arm never raises, and
the only failure is the empty-after-trimming check on the diff output. -/
theorem C2_get_changes_ignores_status :
    GitSCM.get_changes_command = Except.ok ["git", "diff"] ∧
    ∀ run : List String → ProcResult,
      GitSCM.get_changes run =
        if (run ["git", "diff"]).stdout.trim = "" then
          Except.error (Err.clickException "No changes found")
        else Except.ok (run ["git", "diff"]).stdout := by
  exact ⟨rfl, fun run => rfl⟩

/-- C3: `GitSCM.get_command` appends `-a` exactly when `force_all` is set and
never because of the staged status — the status comparisons test the
un-called bound method against enum members and are always false — so with
`force_all = false` (whatever the actual status, including `NONE`) the
returned template has no `-a`. -/
theorem C3_get_command_ignores_status :
    GitSCM.get_command "repo" false = ["git", "commit", "-m", "{}"] ∧
    (∀ p : String, ∀ force_all : Bool,
      GitSCM.get_command p force_all =
        ["git", "commit", "-m", "{}"] ++ (if force_all then ["-a"] else [])) := by
  refine ⟨by decide, fun p force_all => ?_⟩
  cases force_all <;> rfl

/-- C4: with status `NO_CHANGES`, `GitSCM.get_command` and
`MercurialSCM.get_command` still return a command template (their
`ClickException` is constructed but never raised; Git's guard moreover never
fires at all); only `SvnSCM.get_command` raises `No changes to commit`. -/
theorem C4_no_changes_not_raised :
    GitSCM.get_command "repo" false = ["git", "commit", "-m", "{}"] ∧
    MercurialSCM.get_command StagedChangesStatus.NO_CHANGES = ["hg", "commit", "-m", "{}"] ∧
    SvnSCM.get_command StagedChangesStatus.NO_CHANGES =
      Except.error (Err.clickException "No changes to commit") := by
  refine ⟨by decide, by decide, by decide⟩

/-- C5: the selection loop overwrites `scm` with a freshly constructed
adapter on every iteration before testing detection, so after the loop `scm`
is never Python `None`: when no detector recognizes the path the loop leaves
`scm` bound to the last adapter (Subversion), the `if scm is None` branch is
dead, and `commit` proceeds with the Svn adapter instead of failing with the
`No supported SCM found` error. -/
theorem C5_selection_never_fails :
    (∀ a b c : Bool, (select_scm ⟨a, b, c⟩).isSome = true) ∧
    commit_select ⟨false, false, false⟩ = Except.ok ScmKind.svn := by
  refine ⟨by decide, by decide⟩

/-- C6: `GitSCM._staged_changes_status` raises `Failed to get staged changes`
exactly when the status subprocess exits non-zero, and otherwise returns
exactly one of the four statuses, determined by the presence of the two
textual markers: both present gives `SOME`, only the staged marker `ALL`,
only the unstaged marker `NONE`, and both absent `NO_CHANGES`. -/
theorem C6_classifier_total (result : ProcResult) :
    (result.returncode ≠ 0 →
      GitSCM.staged_changes_status result =
        Except.error (Err.clickException "Failed to get staged changes")) ∧
    (result.returncode = 0 →
      GitSCM.staged_changes_status result =
        Except.ok (match strInB "to be committed:" result.stdout,
                   strInB "not staged for commit:" result.stdout with
          | true, true => StagedChangesStatus.SOME
          | true, false => StagedChangesStatus.ALL
          | false, true => StagedChangesStatus.NONE
          | false, false => StagedChangesStatus.NO_CHANGES)) := by
  constructor
  · intro h
    simp [GitSCM.staged_changes_status, h]
  · intro h
    simp only [GitSCM.staged_changes_status, h]
    cases hb : strInB "to be committed:" result.stdout <;>
      cases hc : strInB "not staged for commit:" result.stdout <;>
        simp [hb, hc]

/-- C6 witness: concrete classifier runs — output with only the unstaged
marker classifies as `NONE`, and a non-zero exit raises. -/
theorem C6_classifier_total_witness :
    GitSCM.staged_changes_status ⟨0, "Changes not staged for commit:"⟩ =
      Except.ok StagedChangesStatus.NONE ∧
    GitSCM.staged_changes_status ⟨1, ""⟩ =
      Except.error (Err.clickException "Failed to get staged changes") := by
  constructor
  · have h := (C6_classifier_total ⟨0, "Changes not staged for commit:"⟩).2 rfl
    rw [h]
    decide
  · exact (C6_classifier_total ⟨1, ""⟩).1 (by decide)

/-- C7: on a template with no placeholder token, `insert_message` does not
fail at all — it returns the segments joined by single spaces.  Evaluated on
the placeholder-free template `["git", "commit"]`, it returns the joined
command line `git commit`, refuting the claim that it fails with
`PlaceholderMissing`. -/
theorem C7_no_placeholder_returns_join :
    (insert_message ⟨[["git", "commit"]]⟩ 0 "msg").2 = "git commit" := by
  decide

/-- C7 amended: for every command template containing no placeholder token,
`insert_message` signals no error and returns the template's tokens joined
with single spaces, unchanged. -/
theorem C7_amended_join_unchanged (h : PyHeap) (r : Nat) (msg : String)
    (hnp : "{}" ∉ readRef h r) :
    (insert_message h r msg).2 = String.intercalate " " (readRef h r) := by
  rw [insert_message_ret, insert_message_heap, readRef_write_self, readRef_alloc,
    insert_loop_of_not_mem msg _ hnp]
  simp [allocRef]

/-- C7 amended witness: a concrete placeholder-free template joins
unchanged. -/
theorem C7_amended_join_unchanged_witness :
    (insert_message ⟨[["hg", "commit"]]⟩ 0 "m").2 = "hg commit" := by
  have h := C7_amended_join_unchanged ⟨[["hg", "commit"]]⟩ 0 "m" (by decide)
  rw [h]
  decide

/-- C8: silent mode (`subprocess.run(full_command_str, shell=True,
cwd=path)`) passes no `capture_output` and no `check`, so on a failing
command the plugin prints nothing of its own — neither the exit status nor
any captured output — refuting the claim that both modes report them; the
failure is still not escalated. -/
theorem C8_silent_reports_nothing :
    silent_exec ⟨1, "boom"⟩ = Except.ok [] ∧
    ¬ reports_failure [] ⟨1, "boom"⟩ := by
  refine ⟨rfl, ?_⟩
  simp [reports_failure]

/-- C8 amended: on a non-zero exit, interactive mode prints a single line
carrying the exit status and the captured output (stderr merged into stdout)
and raises nothing; silent mode also raises nothing but prints no report of
its own (the child's output goes straight to the terminal uncaptured). -/
theorem C8_amended_exec (r : ProcResult) (h : r.returncode ≠ 0) :
    interactive_exec r = Except.ok
      ["Command failed with error (exit status " ++ toString r.returncode
        ++ "): " ++ r.stdout] ∧
    reports_failure
      ["Command failed with error (exit status " ++ toString r.returncode
        ++ "): " ++ r.stdout] r ∧
    silent_exec r = Except.ok [] := by
  refine ⟨?_, ?_, rfl⟩
  · simp [interactive_exec, check_output, h]
  · refine ⟨_, List.mem_cons_self _ _, ?_, ?_⟩
    · rw [String.append_assoc ("Command failed with error (exit status "
        ++ toString r.returncode) "): " r.stdout]
      exact strInB_sandwich (toString r.returncode)
        "Command failed with error (exit status " ("): " ++ r.stdout)
    · rw [← String.append_empty ("Command failed with error (exit status "
        ++ toString r.returncode ++ "): " ++ r.stdout)]
      exact strInB_sandwich r.stdout
        ("Command failed with error (exit status " ++ toString r.returncode ++ "): ") ""

/-- C8 amended witness: a concrete failing run, exit status 1 with captured
output `boom`. -/
theorem C8_amended_exec_witness :
    interactive_exec ⟨1, "boom"⟩ =
      Except.ok ["Command failed with error (exit status 1): boom"] ∧
    silent_exec ⟨1, "boom"⟩ = Except.ok [] := by
  have h := C8_amended_exec ⟨1, "boom"⟩ (by decide)
  refine ⟨?_, h.2.2⟩
  rw [h.1]
  decide

/-- C9: the methods' values match the claim (`False` for Git and Subversion,
`True` for Mercurial), but the orchestrator's `if scm.commits_silently:`
tests the attribute without calling it: for Git that attribute is a
bound-method object, which is truthy, so the synthetic confirmation is
printed for Git even though `commits_silently()` would return `False`;
Mercurial and Subversion go through property getters and behave as
claimed. -/
theorem C9_confirmation_truthiness :
    prints_confirmation ScmKind.git = true ∧ GitSCM.commits_silently = false ∧
    prints_confirmation ScmKind.hg = true ∧ MercurialSCM.commits_silently = true ∧
    prints_confirmation ScmKind.svn = false ∧ SvnSCM.commits_silently = false := by
  decide

/-- C10: `insert_message` copies the template before substituting, so the
caller's list object still holds its original tokens — placeholder included,
in their original order — after the call. -/
theorem C10_caller_template_unchanged (h : PyHeap) (r : Nat) (msg : String)
    (hr : r < h.cells.length) :
    readRef (insert_message h r msg).1 r = readRef h r := by
  rw [insert_message_heap, readRef_write_ne, readRef_alloc_old h _ r hr]
  simpa [allocRef] using Nat.ne_of_gt hr

/-- C10 witness: a concrete heap with one template; after `insert_message`
the caller's cell still holds the original four tokens with the
placeholder. -/
theorem C10_caller_template_unchanged_witness :
    readRef (insert_message ⟨[["git", "commit", "-m", "{}"]]⟩ 0 "hello").1 0 =
      ["git", "commit", "-m", "{}"] := by
  have h := C10_caller_template_unchanged ⟨[["git", "commit", "-m", "{}"]]⟩ 0 "hello"
    (by decide)
  rw [h]
  decide

end LlmCommit
